import Mathlib

/-!
Verification of the DH5 gripper driver (dh5-demos).

Shallow embedding of the Modbus RTU frame codec from `docs/dh5.py`
(checksum, request building, response parsing) and of the register /
safety-clamp layer from `dh5_api/dh5_api.py` (position clamping,
calibration polling, per-axis 2-bit packing), with theorems checking the
specification's claims against these definitions.
-/

deriving instance DecidableEq for Except

/-- One round of the inner loop of `DH5ModbusAPI._calculate_crc`
(docs/dh5.py lines 104-109): if the low bit of the accumulator is set,
shift right one bit and XOR with 0xA001, else just shift right. -/
def crc_round (crc : Nat) : Nat :=
  if crc &&& 1 = 1 then (crc >>> 1) ^^^ 0xA001 else crc >>> 1

/-- `n` iterations of `crc_round` (the Python `for _ in range(8)` loop). -/
def crc_rounds : Nat → Nat → Nat
  | 0, crc => crc
  | n + 1, crc => crc_rounds n (crc_round crc)

/-- Absorbing one input byte: `crc ^= pos` followed by the 8 inner rounds
(docs/dh5.py lines 103-109). -/
def crc_byte (crc b : Nat) : Nat := crc_rounds 8 (crc ^^^ b)

/-- `DH5ModbusAPI._calculate_crc` (docs/dh5.py lines 100-110): accumulator
starts at 0xFFFF and absorbs each data byte in order. -/
def calculate_crc (data : List Nat) : Nat := data.foldl crc_byte 0xFFFF

/-- The checksum round as the specification words it, with the low bit
read via `% 2` and the one-bit right shift via `/ 2`. -/
def checksum_spec_round (acc : Nat) : Nat :=
  if acc % 2 = 1 then (acc / 2) ^^^ 0xA001 else acc / 2

/-- `n` iterations of `checksum_spec_round`. -/
def checksum_spec_rounds : Nat → Nat → Nat
  | 0, acc => acc
  | n + 1, acc => checksum_spec_rounds n (checksum_spec_round acc)

/-- The byte-absorption step as the specification words it: XOR the input
byte into the low byte of the accumulator, leaving the rest unchanged. -/
def checksum_spec_absorb (acc b : Nat) : Nat :=
  256 * (acc / 256) + ((acc % 256) ^^^ b)

/-- The whole checksum as the specification words it: start from 0xFFFF,
absorb each byte into the low byte, then run 8 rounds per byte. -/
def checksum_spec (data : List Nat) : Nat :=
  data.foldl (fun acc b => checksum_spec_rounds 8 (checksum_spec_absorb acc b)) 0xFFFF

lemma crc_round_eq_spec (acc : Nat) : crc_round acc = checksum_spec_round acc := by
  unfold crc_round checksum_spec_round
  rw [Nat.and_one_is_mod, Nat.shiftRight_eq_div_pow]

lemma crc_rounds_eq_spec (n acc : Nat) :
    crc_rounds n acc = checksum_spec_rounds n acc := by
  induction n generalizing acc with
  | zero => rfl
  | succ n ih =>
    unfold crc_rounds checksum_spec_rounds
    rw [crc_round_eq_spec, ih]

/-- XOR with a byte only touches the low 8 bits of the accumulator. -/
lemma xor_byte_split (acc b : Nat) (hb : b < 256) :
    acc ^^^ b = 256 * (acc / 256) + ((acc % 256) ^^^ b) := by
  have hdiv : (acc ^^^ b) / 256 = acc / 256 := by
    have h8 : (256 : Nat) = 2 ^ 8 := by norm_num
    rw [h8, ← Nat.shiftRight_eq_div_pow, ← Nat.shiftRight_eq_div_pow]
    apply Nat.eq_of_testBit_eq
    intro i
    have hbbit : b.testBit (8 + i) = false := by
      apply Nat.testBit_lt_two_pow
      calc b < 256 := hb
        _ = 2 ^ 8 := by norm_num
        _ ≤ 2 ^ (8 + i) := Nat.pow_le_pow_right (by norm_num) (Nat.le_add_right _ _)
    simp [Nat.testBit_shiftRight, Nat.testBit_xor, hbbit]
  have hmod : (acc ^^^ b) % 256 = (acc % 256) ^^^ b := by
    have h8 : (256 : Nat) = 2 ^ 8 := by norm_num
    rw [h8]
    apply Nat.eq_of_testBit_eq
    intro i
    simp only [Nat.testBit_mod_two_pow, Nat.testBit_xor]
    by_cases hi : i < 8
    · simp [hi]
    · have hbbit : b.testBit i = false := by
        apply Nat.testBit_lt_two_pow
        calc b < 256 := hb
          _ = 2 ^ 8 := by norm_num
          _ ≤ 2 ^ i := Nat.pow_le_pow_right (by norm_num) (Nat.le_of_not_lt hi)
      simp [hi, hbbit]
  calc acc ^^^ b = 256 * ((acc ^^^ b) / 256) + (acc ^^^ b) % 256 :=
        (Nat.div_add_mod _ 256).symm
    _ = 256 * (acc / 256) + ((acc % 256) ^^^ b) := by rw [hdiv, hmod]

lemma crc_round_lt (acc : Nat) (h : acc < 65536) : crc_round acc < 65536 := by
  have hshift : acc >>> 1 < 65536 := by
    calc acc >>> 1 ≤ acc := by
          rw [Nat.shiftRight_eq_div_pow]
          exact Nat.div_le_self _ _
      _ < 65536 := h
  unfold crc_round
  by_cases hc : acc &&& 1 = 1
  · rw [if_pos hc]
    have h16 : (65536 : Nat) = 2 ^ 16 := by norm_num
    rw [h16]
    exact Nat.xor_lt_two_pow (by omega) (by norm_num)
  · rw [if_neg hc]
    exact hshift

lemma crc_rounds_lt (n acc : Nat) (h : acc < 65536) : crc_rounds n acc < 65536 := by
  induction n generalizing acc with
  | zero => exact h
  | succ n ih =>
    unfold crc_rounds
    exact ih _ (crc_round_lt _ h)

lemma crc_byte_lt (acc b : Nat) (ha : acc < 65536) (hb : b < 256) :
    crc_byte acc b < 65536 := by
  unfold crc_byte
  apply crc_rounds_lt
  have h16 : (65536 : Nat) = 2 ^ 16 := by norm_num
  rw [h16]
  exact Nat.xor_lt_two_pow (by omega) (by omega)

lemma calculate_crc_fold_lt (data : List Nat) (acc : Nat) (ha : acc < 65536)
    (h : ∀ b ∈ data, b < 256) : data.foldl crc_byte acc < 65536 := by
  induction data generalizing acc with
  | nil => exact ha
  | cons x xs ih =>
    simp only [List.foldl_cons]
    exact ih _ (crc_byte_lt _ _ ha (h x (by simp))) (fun b hb => h b (by simp [hb]))

lemma calculate_crc_lt (data : List Nat) (h : ∀ b ∈ data, b < 256) :
    calculate_crc data < 65536 := by
  unfold calculate_crc
  exact calculate_crc_fold_lt data 0xFFFF (by norm_num) h

/-- C1: the checksum function of the code computes exactly the value the
specification describes — accumulator initialized to 0xFFFF, each byte
XOR-ed into the low byte, 8 conditional shift/XOR-0xA001 rounds per byte —
and the result is a 16-bit value. -/
theorem checksum_matches_spec (data : List Nat) (h : ∀ b ∈ data, b < 256) :
    calculate_crc data = checksum_spec data ∧ calculate_crc data < 65536 := by
  refine ⟨?_, calculate_crc_lt data h⟩
  unfold calculate_crc checksum_spec
  have key : ∀ (l : List Nat) (acc : Nat), (∀ b ∈ l, b < 256) →
      l.foldl crc_byte acc =
        l.foldl (fun a b => checksum_spec_rounds 8 (checksum_spec_absorb a b)) acc := by
    intro l
    induction l with
    | nil => intro acc _; rfl
    | cons x xs ih =>
      intro acc hl
      simp only [List.foldl_cons]
      have hx : x < 256 := hl x (by simp)
      have hstep : crc_byte acc x = checksum_spec_rounds 8 (checksum_spec_absorb acc x) := by
        unfold crc_byte checksum_spec_absorb
        rw [crc_rounds_eq_spec, xor_byte_split acc x hx]
      rw [hstep, ih _ (fun b hb => hl b (by simp [hb]))]
  exact key data 0xFFFF h

/-- Witness for C1 at a concrete frame prefix. -/
theorem checksum_matches_spec_witness :
    calculate_crc [1, 16, 2, 0] = checksum_spec [1, 16, 2, 0] ∧
      calculate_crc [1, 16, 2, 0] < 65536 :=
  checksum_matches_spec [1, 16, 2, 0] (by decide)

/-- `struct.pack(">H", v)`: a 16-bit value as two big-endian bytes
(meaningful for `v < 65536`, where `struct.pack` does not raise). -/
def pack_be16 (v : Nat) : List Nat := [v / 256, v % 256]

/-- `struct.pack("<H", v)`: a 16-bit value as two little-endian bytes,
least-significant byte first. -/
def pack_le16 (v : Nat) : List Nat := [v % 256, v / 256]

/-- Python truthiness choice `x if x else y` on an optional integer. -/
def py_or_nat : Option Nat → Nat → Nat
  | some n, d => if n = 0 then d else n
  | none, d => d

/-- `DH5ModbusAPI._build_request` (docs/dh5.py lines 75-98): frame =
[modbus id] [function code] [register address BE], then the
function-specific payload, then the CRC appended little-endian.
For 0x10 the register count is `data_length if data_length else
len(values)` and the byte count is `register_count * 2`. -/
def build_request (modbus_id function_code register_address : Nat)
    (data_length : Option Nat) (value : Nat) (values : List Nat) : List Nat :=
  let req := [modbus_id, function_code] ++ pack_be16 register_address
  let req :=
    if function_code = 3 then req ++ pack_be16 (data_length.getD 1)
    else if function_code = 6 then req ++ pack_be16 value
    else if function_code = 16 then
      req ++ pack_be16 (py_or_nat data_length values.length)
        ++ [py_or_nat data_length values.length * 2]
        ++ values.flatMap pack_be16
    else req
  req ++ pack_le16 (calculate_crc req)

/-- The WriteMultipleRegisters frame body as the specification lays it
out: unit address, 0x10, register address (big-endian), register count
(big-endian), byte count = 2 x register count, then each value
big-endian. -/
def wm_frame_body (md addr : Nat) (vals : List Nat) : List Nat :=
  [md, 16, addr / 256, addr % 256, vals.length / 256, vals.length % 256,
    vals.length * 2] ++ vals.flatMap (fun v => [v / 256, v % 256])

/-- C7: for every unit address, register address and list of 16-bit
values of length 1..=123, the encoded WriteMultipleRegisters frame is the
spec's layout followed by the checksum transmitted least-significant byte
first, and the checksum is a 16-bit value (so both its bytes are bytes). -/
theorem build_request_write_multiple (md addr : Nat) (vals : List Nat)
    (hmd : md < 256) (haddr : addr < 65536) (hv : ∀ v ∈ vals, v < 65536)
    (_hlen1 : 1 ≤ vals.length) (hlen2 : vals.length ≤ 123) :
    build_request md 16 addr none 0 vals =
      wm_frame_body md addr vals ++
        [calculate_crc (wm_frame_body md addr vals) % 256,
         calculate_crc (wm_frame_body md addr vals) / 256]
    ∧ calculate_crc (wm_frame_body md addr vals) < 65536 := by
  have hbytes : ∀ b ∈ wm_frame_body md addr vals, b < 256 := by
    intro b hb
    simp only [wm_frame_body, List.mem_append, List.mem_cons, List.mem_flatMap,
      List.not_mem_nil, or_false] at hb
    rcases hb with (rfl | rfl | rfl | rfl | rfl | rfl | rfl) | ⟨v, hmem, hb⟩
    · exact hmd
    · omega
    · omega
    · omega
    · omega
    · omega
    · omega
    · have hvlt := hv v hmem
      rcases hb with rfl | rfl <;> omega
  refine ⟨?_, calculate_crc_lt _ hbytes⟩
  have hfm : vals.flatMap pack_be16 = vals.flatMap (fun v => [v / 256, v % 256]) := rfl
  simp [build_request, wm_frame_body, pack_be16, pack_le16, py_or_nat, hfm]

/-- Witness for C7 at a concrete frame. -/
theorem build_request_write_multiple_witness :
    build_request 1 16 257 none 0 [700, 1600] =
      wm_frame_body 1 257 [700, 1600] ++
        [calculate_crc (wm_frame_body 1 257 [700, 1600]) % 256,
         calculate_crc (wm_frame_body 1 257 [700, 1600]) / 256]
    ∧ calculate_crc (wm_frame_body 1 257 [700, 1600]) < 65536 :=
  build_request_write_multiple 1 257 [700, 1600] (by decide) (by decide)
    (by decide) (by decide) (by decide)

/-- A Python return value of `_parse_response` (docs/dh5.py): an integer
status code, a list of register values, the implicit `None`, or a raised
exception (malformed read payload). -/
inductive PyValue where
  | intv (n : Nat)
  | listv (xs : List Nat)
  | nonev
  | raisev
deriving DecidableEq

/-- The transmitted checksum rebuilt from the two trailing bytes of the
response, low byte first: `(crc_high << 8) | crc_low`
(docs/dh5.py line 122). -/
def crc_received (r : List Nat) : Nat :=
  (r.getD (r.length - 1) 0) <<< 8 ||| r.getD (r.length - 2) 0

/-- Read-payload decoding (docs/dh5.py lines 129-132): successive byte
pairs as big-endian 16-bit values; an odd tail makes `struct.unpack`
raise. -/
def unpack_be_pairs : List Nat → Option (List Nat)
  | [] => some []
  | [_] => none
  | a :: b :: rest => (unpack_be_pairs rest).map (fun t => (256 * a + b) :: t)

/-- `DH5ModbusAPI._parse_response` (docs/dh5.py lines 112-134): reject
frames shorter than 5 bytes, then an unexpected function code, then a
checksum mismatch (computed over all but the two trailing bytes); then
decode the payload for reads or return SUCCESS for writes. The payload is
`response[2:-2]`, and reads skip its one-byte count prefix. -/
def parse_response (r : List Nat) (function_code : Nat) : PyValue :=
  if r.length < 5 then .intv 2
  else if r.getD 1 0 ≠ function_code then .intv 2
  else if crc_received r ≠ calculate_crc (r.take (r.length - 2)) then .intv 3
  else if function_code = 3 then
    match unpack_be_pairs (((r.drop 2).take (r.length - 4)).drop 1) with
    | some vals => .listv vals
    | none => .raisev
  else if function_code = 6 ∨ function_code = 16 then .intv 0
  else .nonev

/-- C6 (amended): a frame shorter than 5 bytes fails as an incomplete
response; with at least 5 bytes an unexpected function code fails first
(with the generic invalid-response code 2, before the checksum is even
computed); only when the function code matches does the parser fail with
the checksum-mismatch code 3, exactly when the checksum recomputed over
all but the trailing two bytes disagrees with the transmitted one rebuilt
low-byte-first. -/
theorem parse_response_error_order (r : List Nat) (fc : Nat) :
    (r.length < 5 → parse_response r fc = PyValue.intv 2)
    ∧ (5 ≤ r.length → r.getD 1 0 ≠ fc → parse_response r fc = PyValue.intv 2)
    ∧ (5 ≤ r.length → r.getD 1 0 = fc →
        (parse_response r fc = PyValue.intv 3 ↔
          crc_received r ≠ calculate_crc (r.take (r.length - 2)))) := by
  refine ⟨?_, ?_, ?_⟩
  · intro h
    unfold parse_response
    rw [if_pos h]
  · intro h5 hne
    unfold parse_response
    rw [if_neg (by omega), if_pos hne]
  · intro h5 heq
    unfold parse_response
    rw [if_neg (by omega), if_neg (not_not_intro heq)]
    by_cases hcrc : crc_received r ≠ calculate_crc (r.take (r.length - 2))
    · rw [if_pos hcrc]
      simp [hcrc]
    · rw [if_neg hcrc]
      constructor
      · intro hcontra
        exfalso
        revert hcontra
        by_cases h3 : fc = 3
        · rw [if_pos h3]
          cases hu : unpack_be_pairs (((r.drop 2).take (r.length - 4)).drop 1) <;> simp
        · rw [if_neg h3]
          by_cases h6 : fc = 6 ∨ fc = 16
          · rw [if_pos h6]
            simp
          · rw [if_neg h6]
            simp
      · intro hc
        exact absurd hc hcrc

/-- Witness for C6 at concrete frames: a short frame, a
wrong-function-code frame, and a matching-function-code frame. -/
theorem parse_response_error_order_witness :
    parse_response [1] 3 = PyValue.intv 2
    ∧ parse_response [1, 4, 0, 0, 0] 3 = PyValue.intv 2
    ∧ (parse_response [1, 3, 0, 0, 0] 3 = PyValue.intv 3 ↔
        crc_received [1, 3, 0, 0, 0] ≠
          calculate_crc ([1, 3, 0, 0, 0].take ([1, 3, 0, 0, 0].length - 2))) :=
  ⟨(parse_response_error_order [1] 3).1 (by decide),
   (parse_response_error_order [1, 4, 0, 0, 0] 3).2.1 (by decide) (by decide),
   (parse_response_error_order [1, 3, 0, 0, 0] 3).2.2 (by decide) (by decide)⟩

/-- C6 counterexample: a 5-byte frame whose checksum disagrees with the
transmitted one but whose function code also differs from the expected one
is rejected with the generic invalid-response code 2, not with the
checksum-mismatch code 3 — the checksum is never even consulted. -/
theorem parse_response_crc_not_checked_first :
    crc_received [1, 4, 0, 0, 0] ≠
      calculate_crc ([1, 4, 0, 0, 0].take ([1, 4, 0, 0, 0].length - 2))
    ∧ parse_response [1, 4, 0, 0, 0] 3 = PyValue.intv 2
    ∧ PyValue.intv 2 ≠ PyValue.intv 3 := by decide

/-- A pymodbus response object as `DH5ModbusAPI._parse_response`
(dh5_api/dh5_api.py lines 272-302) sees it: either a normal PDU carrying
its `registers` list, or an `ExceptionResponse` carrying its
`function_code` (the request code with the high bit set, or the library's
0xFF placeholder when no response was expected) and the device-reported
exception code. An `ExceptionResponse` has an empty `registers` list. -/
inductive PduResponse where
  | normal (registers : List Nat)
  | exception (function_code : Nat) (exception_code : Nat)
deriving DecidableEq

/-- `DH5ModbusAPI._parse_response` (dh5_api/dh5_api.py lines 272-302): an
exception response whose function code is not 0xFF yields the generic
ERROR_INVALID_RESPONSE (2); anything else falls through to the
function-code dispatch — `registers` for reads, SUCCESS (0) for writes
and for any other request code. -/
def parse_response_pdu (resp : PduResponse) (function_code : Nat) : PyValue :=
  match resp with
  | .exception fc _ec =>
      if fc ≠ 255 then .intv 2
      else if function_code = 3 then .listv []
      else if function_code = 6 ∨ function_code = 16 then .intv 0
      else .intv 0
  | .normal regs =>
      if function_code = 3 then .listv regs
      else if function_code = 6 ∨ function_code = 16 then .intv 0
      else .intv 0

/-- C8 (amended): an exception response whose function code is not the
0xFF "no response expected" placeholder makes decoding fail with the
generic invalid-response code 2 — the device-reported exception code is
not carried in the result — while an exception response with function
code 0xFF is treated as a successful acknowledgment (SUCCESS, no data)
for write requests. -/
theorem parse_pdu_exception_branches (fc ec qfc : Nat) :
    (fc ≠ 255 → parse_response_pdu (PduResponse.exception fc ec) qfc = PyValue.intv 2)
    ∧ ((qfc = 6 ∨ qfc = 16) →
        parse_response_pdu (PduResponse.exception 255 ec) qfc = PyValue.intv 0)
    ∧ (∀ ec2 : Nat, parse_response_pdu (PduResponse.exception fc ec) qfc =
        parse_response_pdu (PduResponse.exception fc ec2) qfc) := by
  refine ⟨?_, ?_, ?_⟩
  · intro h
    simp [parse_response_pdu, h]
  · intro h
    rcases h with rfl | rfl <;> simp [parse_response_pdu]
  · intro ec2
    rfl

/-- Witness for C8: the 0x86 exception reply to a 0x06 request fails with
code 2, and the 0xFF placeholder acknowledges the same request. -/
theorem parse_pdu_exception_branches_witness :
    parse_response_pdu (PduResponse.exception 134 2) 6 = PyValue.intv 2
    ∧ parse_response_pdu (PduResponse.exception 255 2) 6 = PyValue.intv 0 :=
  ⟨(parse_pdu_exception_branches 134 2 6).1 (by decide),
   (parse_pdu_exception_branches 255 2 6).2.1 (Or.inl rfl)⟩

/-- C8 counterexample: decoding an exception reply (function code 0x86 to
a 0x06 request) yields the fixed generic error 2 whatever the
device-reported exception code is — two different exception codes decode
identically, so no `DeviceException(code)` carrying the code exists. -/
theorem parse_pdu_drops_exception_code :
    parse_response_pdu (PduResponse.exception 134 2) 6 = PyValue.intv 2
    ∧ parse_response_pdu (PduResponse.exception 134 3) 6 = PyValue.intv 2
    ∧ parse_response_pdu (PduResponse.exception 134 2) 6 =
        parse_response_pdu (PduResponse.exception 134 3) 6 := by decide

/-- The per-axis clamp of `_validate_and_clamp_positions`
(dh5_api/dh5_api.py line 349): `max(1, min(pos, max_pos - 10))`. -/
def clamp_pos (pos max_pos : Int) : Int := max 1 (min pos (max_pos - 10))

/-- The class attribute `max_positions = [500] * DH5Registers.AXIS_COUNT`
(dh5_api/dh5_api.py line 90), the value a freshly constructed,
never-calibrated session holds. -/
def default_max_positions : List Int := List.replicate 6 500

/-- `DH5ModbusAPI._validate_and_clamp_positions` (dh5_api/dh5_api.py
lines 334-360): an empty (falsy) `max_positions` returns the input as-is
with only a logged warning; a length mismatch raises `ValueError`;
otherwise each position is clamped by `clamp_pos` against its axis's
maximum. -/
def validate_and_clamp_positions (max_positions positions : List Int) :
    Except String (List Int) :=
  if max_positions = [] then Except.ok positions
  else if positions.length ≠ max_positions.length then
    Except.error "Position list length does not match number of axes"
  else Except.ok (List.zipWith clamp_pos positions max_positions)

/-- The positions `DH5ModbusAPI.set_all_positions` (dh5_api/dh5_api.py
lines 519-544) hands to the transport: a 6-element check, then the
clamped list is sent. -/
def set_all_positions_sent (max_positions positions : List Int) :
    Except String (List Int) :=
  if positions.length ≠ 6 then
    Except.error "Must provide exactly 6 position values"
  else validate_and_clamp_positions max_positions positions

/-- The position `DH5ModbusAPI.set_axis_position` (dh5_api/dh5_api.py
lines 750-769) hands to the transport: after the axis-range check the
commanded value is sent as-is — no clamp is applied on this path. -/
def set_axis_position_sent (axis : Nat) (position : Int) : Option Int :=
  if axis < 1 ∨ 6 < axis then none
  else some position

/-- C2 counterexample: with the default (never-calibrated) per-axis
maxima of 500, the all-axes path sends 490 for a commanded 600, but the
single-axis path sends 600 itself, which is outside the clamped range
[1, 490]. -/
theorem set_axis_position_unclamped :
    set_axis_position_sent 2 600 = some 600
    ∧ set_all_positions_sent default_max_positions [600, 600, 600, 600, 600, 600] =
        Except.ok [490, 490, 490, 490, 490, 490]
    ∧ ¬ ((600 : Int) ≤ 490) := by decide

/-- C2 (amended): positions written through `set_all_positions` are the
clamped values, each inside [1, max - 10] whenever that interval is
nonempty, but `set_axis_position` sends the commanded value unchanged. -/
theorem set_positions_clamping (maxs ps : List Int) (p m : Int) (a : Nat)
    (hmne : maxs ≠ []) (hlen : ps.length = 6) (hml : maxs.length = 6)
    (hm : 1 ≤ m - 10) (ha1 : 1 ≤ a) (ha2 : a ≤ 6) :
    set_all_positions_sent maxs ps = Except.ok (List.zipWith clamp_pos ps maxs)
    ∧ 1 ≤ clamp_pos p m ∧ clamp_pos p m ≤ m - 10
    ∧ set_axis_position_sent a p = some p := by
  refine ⟨?_, ?_, ?_, ?_⟩
  · unfold set_all_positions_sent validate_and_clamp_positions
    rw [if_neg (not_not_intro hlen), if_neg hmne,
      if_neg (not_not_intro (by omega))]
  · unfold clamp_pos
    omega
  · unfold clamp_pos
    omega
  · unfold set_axis_position_sent
    rw [if_neg (by omega)]

/-- Witness for C2's amended statement at concrete inputs. -/
theorem set_positions_clamping_witness :
    set_all_positions_sent default_max_positions [0, 250, 600, 1, 490, 491] =
      Except.ok (List.zipWith clamp_pos [0, 250, 600, 1, 490, 491] default_max_positions)
    ∧ 1 ≤ clamp_pos 600 500 ∧ clamp_pos 600 500 ≤ 500 - 10
    ∧ set_axis_position_sent 2 600 = some 600 :=
  set_positions_clamping default_max_positions [0, 250, 600, 1, 490, 491] 600 500 2
    (by decide) (by decide) (by decide) (by decide) (by decide) (by decide)

/-- C3 counterexample: on a freshly constructed session the stored maxima
are the default [500, 500, 500, 500, 500, 500], which is non-empty, so
the uncalibrated guard does not fire and the clamp does change a
6-element input. -/
theorem clamp_default_not_identity :
    validate_and_clamp_positions default_max_positions [600, 300, 300, 300, 300, 600] ≠
      Except.ok [600, 300, 300, 300, 300, 600] := by decide

/-- C3 (amended): the clamp returns its input unchanged only when the
stored max-position list is empty; a freshly constructed session holds
the non-empty default [500] * 6, so every 6-element input is clamped into
[1, 490]. -/
theorem clamp_uncalibrated_guard (ps : List Int) (hlen : ps.length = 6) :
    validate_and_clamp_positions [] ps = Except.ok ps
    ∧ default_max_positions ≠ []
    ∧ validate_and_clamp_positions default_max_positions ps =
        Except.ok (ps.map (fun p => max 1 (min p 490))) := by
  refine ⟨rfl, by decide, ?_⟩
  unfold validate_and_clamp_positions
  rw [if_neg (by decide), if_neg (not_not_intro (by simp [default_max_positions, hlen]))]
  congr 1
  have key : ∀ (l : List Int) (n : Nat), l.length = n →
      List.zipWith clamp_pos l (List.replicate n 500) =
        l.map (fun p => max 1 (min p 490)) := by
    intro l
    induction l with
    | nil => intro n _; simp
    | cons x xs ih =>
      intro n hn
      cases n with
      | zero => simp at hn
      | succ n =>
        simp only [List.replicate_succ, List.zipWith_cons_cons, List.map_cons]
        rw [ih n (by simpa using hn)]
        norm_num [clamp_pos]
  exact key ps 6 hlen

/-- Witness for C3's amended statement at a concrete input. -/
theorem clamp_uncalibrated_guard_witness :
    validate_and_clamp_positions [] [600, 300, 300, 300, 300, 600] =
      Except.ok [600, 300, 300, 300, 300, 600]
    ∧ default_max_positions ≠ []
    ∧ validate_and_clamp_positions default_max_positions [600, 300, 300, 300, 300, 600] =
        Except.ok ([600, 300, 300, 300, 300, 600].map (fun p => max 1 (min p 490))) :=
  clamp_uncalibrated_guard [600, 300, 300, 300, 300, 600] (by decide)

/-- C4 counterexample: with a calibrated maximum of 5 on axis 1, the
input 2 lies above max - 10 = -5 yet the clamp returns 1, not max - 10 —
the claim's unconditional case analysis fails when max - 10 < 1. -/
theorem clamp_small_max :
    validate_and_clamp_positions [5, 500, 500, 500, 500, 500]
        [2, 100, 100, 100, 100, 100] =
      Except.ok [1, 100, 100, 100, 100, 100]
    ∧ (5 : Int) - 10 < 2
    ∧ (1 : Int) ≠ 5 - 10 := by decide

/-- C4 (amended): after calibration the clamp outputs exactly
`max 1 (min input (max - 10))` on every axis; and whenever the safe
interval [1, max - 10] is nonempty, an input above max - 10 returns
exactly max - 10, an input below 1 returns exactly 1, and an input inside
the interval passes through unchanged. -/
theorem clamp_formula (maxs ps : List Int) (p m : Int)
    (hmne : maxs ≠ []) (hlen : ps.length = maxs.length) (hm : 1 ≤ m - 10) :
    validate_and_clamp_positions maxs ps = Except.ok (List.zipWith clamp_pos ps maxs)
    ∧ clamp_pos p m = max 1 (min p (m - 10))
    ∧ (m - 10 < p → clamp_pos p m = m - 10)
    ∧ (p < 1 → clamp_pos p m = 1)
    ∧ (1 ≤ p → p ≤ m - 10 → clamp_pos p m = p) := by
  refine ⟨?_, rfl, ?_, ?_, ?_⟩
  · unfold validate_and_clamp_positions
    rw [if_neg hmne, if_neg (not_not_intro hlen)]
  · intro h
    unfold clamp_pos
    omega
  · intro h
    unfold clamp_pos
    omega
  · intro h1 h2
    unfold clamp_pos
    omega

/-- Witness for C4's amended statement: the three clamp cases at
max = 500 and the clamped write of an out-of-range input. -/
theorem clamp_formula_witness :
    validate_and_clamp_positions [500] [600] =
      Except.ok (List.zipWith clamp_pos [600] [500])
    ∧ clamp_pos 600 500 = 500 - 10
    ∧ clamp_pos 0 500 = 1
    ∧ clamp_pos 250 500 = 250 :=
  ⟨(clamp_formula [500] [600] 600 500 (by decide) (by decide) (by decide)).1,
   (clamp_formula [500] [600] 600 500 (by decide) (by decide) (by decide)).2.2.1 (by decide),
   (clamp_formula [500] [600] 0 500 (by decide) (by decide) (by decide)).2.2.2.1 (by decide),
   (clamp_formula [500] [600] 250 500 (by decide) (by decide) (by decide)).2.2.2.2
     (by decide) (by decide)⟩

/-- The 2-bit field of one axis in a status word, zero-based axis index:
`(init_status >> (axis * 2)) & 0b11` (dh5_api/dh5_api.py line 404). -/
def axis_status (w : Nat) (axis : Nat) : Nat := (w >>> (axis * 2)) &&& 3

/-- The label `check_initialization` (dh5_api/dh5_api.py lines 404-410)
assigns to a 2-bit field: 0b01 is reported "initialized", 0b10 is
reported "initializing", anything else "not initialized". -/
def status_label (s : Nat) : String :=
  if s = 1 then "initialized" else if s = 2 then "initializing" else "not initialized"

/-- The six per-axis labels `check_initialization` derives from one
status word, least-significant 2-bit pair first. -/
def check_init_labels (w : Nat) : List String :=
  (List.range 6).map (fun a => status_label (axis_status w a))

/-- The exit test of the poll loop in `calibrate_max_positions`
(dh5_api/dh5_api.py lines 312-320): the loop breaks only when the status
read succeeded (a dict of six entries) and every axis's label is
"initialized"; a failed read (`none`) keeps polling. -/
def calib_exit : Option Nat → Bool
  | some w => (check_init_labels w).all (fun s => s == "initialized")
  | none => false

/-- Whether the `while True` poll loop of `calibrate_max_positions` has
exited within the first `n` polls, given the status reading each poll
returns. -/
def calib_poll_exits_within (readings : Nat → Option Nat) (n : Nat) : Bool :=
  (List.range n).any (fun k => calib_exit (readings k))

/-- C5 counterexample: fed a status word that never reports any axis
initialized, the calibration poll loop has still not exited after 50
polls — no timeout path exists in the loop. -/
theorem calibrate_no_timeout :
    calib_poll_exits_within (fun _ => some 0) 50 = false := by decide

/-- C5 (amended): the calibration poll loop is unbounded — it exits
within `n` polls exactly when some earlier poll satisfied the
all-axes-initialized test, and if the status never converges it has not
exited after any number of polls; the code has no CalibrationTimeout. -/
theorem calibrate_poll_unbounded (readings : Nat → Option Nat) :
    (∀ n, calib_poll_exits_within readings n = true ↔
      ∃ k, k < n ∧ calib_exit (readings k) = true)
    ∧ ((∀ k, calib_exit (readings k) = false) →
        ∀ n, calib_poll_exits_within readings n = false) := by
  constructor
  · intro n
    simp [calib_poll_exits_within, List.any_eq_true, List.mem_range]
  · intro h n
    simp [calib_poll_exits_within, h]

/-- Witness for C5's amended statement on the constantly-uninitialized
status stream. -/
theorem calibrate_poll_unbounded_witness :
    calib_poll_exits_within (fun _ => some 0) 7 = false :=
  (calibrate_poll_unbounded (fun _ => some 0)).2 (fun _ => by decide) 7

/-- `DH5ModbusAPI.initialize` (dh5_api/dh5_api.py lines 702-704): OR the
2-bit mode into all six per-axis slots of one 16-bit word. -/
def pack_uniform_mode (mode : Nat) : Nat :=
  (List.range 6).foldl (fun data axis => data ||| (mode <<< (axis * 2))) 0

/-- `DH5ModbusAPI.initialize_axis` (dh5_api/dh5_api.py lines 737-740):
starting from 0, clear the target axis's 2 bits (a no-op on 0) and OR the
mode into that axis's slot; axis is 1-based. -/
def pack_single_axis_mode (axis mode : Nat) : Nat :=
  0 ||| (mode <<< ((axis - 1) * 2))

/-- The per-axis extraction of `check_initialization` applied to all six
slots: the six 2-bit fields, least-significant pair first. -/
def unpack_per_axis_2bit (w : Nat) : List Nat :=
  (List.range 6).map (fun a => axis_status w a)

/-- C9: packing a 2-bit mode uniformly into all six slots and unpacking
yields six copies of the mode; packing it into a single 1-based axis and
unpacking yields the mode at zero-based slot axis - 1 and 0 elsewhere. -/
theorem pack_unpack_round_trip (m : Nat) (hm : m < 4) (a : Nat)
    (ha1 : 1 ≤ a) (ha2 : a ≤ 6) :
    unpack_per_axis_2bit (pack_uniform_mode m) = List.replicate 6 m
    ∧ unpack_per_axis_2bit (pack_single_axis_mode a m) =
        (List.range 6).map (fun i => if i = a - 1 then m else 0) := by
  interval_cases m <;> interval_cases a <;> decide

/-- Witness for C9 at the spec's two examples: uniform mode 0b10, and
mode 0b01 on axis 3. -/
theorem pack_unpack_round_trip_witness :
    unpack_per_axis_2bit (pack_uniform_mode 2) = [2, 2, 2, 2, 2, 2]
    ∧ unpack_per_axis_2bit (pack_single_axis_mode 3 1) = [0, 0, 1, 0, 0, 0] :=
  ⟨(pack_unpack_round_trip 2 (by decide) 3 (by decide) (by decide)).1.trans (by decide),
   (pack_unpack_round_trip 1 (by decide) 3 (by decide) (by decide)).2.trans (by decide)⟩

/-- `DH5Registers.INIT_STATUS_INITIALIZING` (dh5_api/dh5_api.py
line 73). -/
def INIT_STATUS_INITIALIZING : Nat := 1

/-- `DH5Registers.INIT_STATUS_INITIALIZED` (dh5_api/dh5_api.py
line 74). -/
def INIT_STATUS_INITIALIZED : Nat := 2

lemma status_label_eq_initialized (s : Nat) :
    status_label s = "initialized" ↔ s = 1 := by
  unfold status_label
  by_cases h1 : s = 1
  · simp [h1]
  · rw [if_neg h1]
    constructor
    · intro h
      exfalso
      by_cases h2 : s = 2
      · rw [if_pos h2] at h
        exact absurd h (by decide)
      · rw [if_neg h2] at h
        exact absurd h (by decide)
    · intro h
      exact absurd h h1

lemma status_label_eq_initializing (s : Nat) :
    status_label s = "initializing" ↔ s = 2 := by
  unfold status_label
  by_cases h1 : s = 1
  · rw [if_pos h1]
    constructor
    · intro h
      exact absurd h (by decide)
    · intro h
      omega
  · rw [if_neg h1]
    by_cases h2 : s = 2
    · simp [h2]
    · rw [if_neg h2]
      constructor
      · intro h
        exact absurd h (by decide)
      · intro h
        exact absurd h h2

/-- C10: `check_initialization` labels a 2-bit field "initialized"
exactly when it equals 0b01 and "initializing" exactly when it equals
0b10 — the reverse of the register-constant table, which declares
INIT_STATUS_INITIALIZING = 0b01 and INIT_STATUS_INITIALIZED = 0b10 — and
the calibration poll loop's exit test holds exactly when every axis's
2-bit field equals 0b01. -/
theorem init_status_labels_reversed :
    (INIT_STATUS_INITIALIZING = 1 ∧ INIT_STATUS_INITIALIZED = 2)
    ∧ (∀ w a : Nat,
        (status_label (axis_status w a) = "initialized" ↔
          axis_status w a = INIT_STATUS_INITIALIZING)
        ∧ (status_label (axis_status w a) = "initializing" ↔
          axis_status w a = INIT_STATUS_INITIALIZED))
    ∧ (∀ w : Nat, calib_exit (some w) = true ↔
        ∀ a, a < 6 → axis_status w a = 1) := by
  refine ⟨⟨rfl, rfl⟩, ?_, ?_⟩
  · intro w a
    exact ⟨status_label_eq_initialized _, status_label_eq_initializing _⟩
  · intro w
    simp only [calib_exit, check_init_labels, List.all_eq_true,
      List.forall_mem_map, List.mem_range, beq_iff_eq]
    constructor
    · intro h a ha
      exact (status_label_eq_initialized _).mp (h a ha)
    · intro h a ha
      exact (status_label_eq_initialized _).mpr (h a ha)

/-- Witness for C10 at the all-initialized status word 0x555. -/
theorem init_status_labels_reversed_witness :
    (status_label (axis_status 1365 0) = "initialized" ↔
      axis_status 1365 0 = INIT_STATUS_INITIALIZING)
    ∧ calib_exit (some 1365) = true :=
  ⟨(init_status_labels_reversed.2.1 1365 0).1,
   (init_status_labels_reversed.2.2 1365).mpr (fun a ha => by interval_cases a <;> decide)⟩
